import Mathlib

/-!
Verification of the headless Claude Code agent (`agents/claude_code_agent.py`).

The repository's core is `execute_prompt`: it gates execution on an operator
confirmation, spawns the external agent as a subprocess, consumes its
line-delimited JSON progress stream through `_display_claude_progress`,
waits for exit with a timeout, and reconciles the exit code with a result
artifact file into an `AgentResponse`.

The embedding below models the Python dynamic values as an inductive `Json`
type, Python attribute/type errors as an explicit `PyExc` error monad
(`Except PyExc`), and the process world (operator input, subprocess stream,
exit status, standard error, artifact file) as an explicit `World` record
consumed by a pure `execute` function that returns the produced response,
whether a subprocess was spawned, and whether it was killed.
-/

/-- A decoded JSON value, as produced by Python's `json.loads`.
Numeric fields are modelled as integers; none of the classification logic
inspects numeric values other than by comparison with literal bounds. -/
inductive Json where
  | null : Json
  | bool : Bool → Json
  | num : Int → Json
  | str : String → Json
  | arr : List Json → Json
  | obj : List (String × Json) → Json

/-- Python exceptions that the embedded code can raise.  All constructors
model classes deriving from Python's `Exception`.  `agentTimeout` models
`AgentTimeoutException` from `common.exceptions` (declared outside this
file's source): a user-defined exception class, hence (as for every
ordinary Python user exception) a subclass of `Exception`, carrying the
agent name, the configured timeout in seconds and a message.
`artifactError` models the exception raised by the base class's
`_read_output_file` when the result artifact cannot be read; modelled from
the spec: the artifact reader "returns its full text or fails with
`ArtifactUnavailable`". -/
inductive PyExc where
  | timeoutExpired : PyExc
  | agentTimeout : String → Nat → String → PyExc
  | attributeError : String → PyExc
  | typeError : String → PyExc
  | osError : String → PyExc
  | artifactError : String → PyExc
deriving DecidableEq

/-- `subprocess.TimeoutExpired` is the only modelled exception matched by
the handler `except subprocess.TimeoutExpired` (line 209 of the source). -/
def PyExc.isTimeoutExpired : PyExc → Bool
  | .timeoutExpired => true
  | _ => false

/-- Which modelled exceptions are matched by `except Exception` (line 212
of the source).  Every modelled exception class derives from `Exception`
(Python user-defined exceptions derive from `Exception`), so this is
uniformly `true`. -/
def PyExc.isException : PyExc → Bool
  | _ => true

/-- Python `str(e)` for the modelled exceptions. -/
def PyExc.str : PyExc → String
  | .timeoutExpired => "Command timed out"
  | .agentTimeout a s m => a ++ ": " ++ m ++ " (timeout: " ++ toString s ++ "s)"
  | .attributeError m => m
  | .typeError m => m
  | .osError m => m
  | .artifactError m => m

/-- Lookup of a key in a decoded JSON object (first binding wins, as in a
Python dict materialised from unique keys). -/
def jlookup : List (String × Json) → String → Option Json
  | [], _ => none
  | (k, v) :: rest, key => if k == key then some v else jlookup rest key

/-- Python `d.get(key)` (default `None`): succeeds only on a dict, raising
`AttributeError` otherwise. -/
def pyGetOpt (j : Json) (key : String) : Except PyExc (Option Json) :=
  match j with
  | .obj kvs => .ok (jlookup kvs key)
  | _ => .error (.attributeError ("object has no attribute get: " ++ key))

/-- Python `d.get(key, default)`. -/
def pyGetD (j : Json) (key : String) (d : Json) : Except PyExc Json :=
  match j with
  | .obj kvs => .ok ((jlookup kvs key).getD d)
  | _ => .error (.attributeError ("object has no attribute get: " ++ key))

/-- Python truthiness of a decoded JSON value. -/
def pyTruthy : Json → Bool
  | .null => false
  | .bool b => b
  | .num n => n != 0
  | .str s => !s.isEmpty
  | .arr xs => !xs.isEmpty
  | .obj kvs => !kvs.isEmpty

/-- Python iteration over a decoded JSON value: lists yield their elements,
strings their characters, dicts their keys; other values raise `TypeError`. -/
def pyIter : Json → Except PyExc (List Json)
  | .arr xs => .ok xs
  | .str s => .ok (s.data.map fun c => .str (String.singleton c))
  | .obj kvs => .ok (kvs.map fun kv => .str kv.1)
  | _ => .error (.typeError "object is not iterable")

/-- Python `len`. -/
def pyLen : Json → Except PyExc Nat
  | .str s => .ok s.length
  | .arr xs => .ok xs.length
  | .obj kvs => .ok kvs.length
  | _ => .error (.typeError "object has no len")

/-- Python `str.lower()` (ASCII case mapping). -/
def pyLower (s : String) : String :=
  String.mk (s.data.map Char.toLower)

/-- Python `str[:n]`: the first `n` code points. -/
def pyTake (s : String) (n : Nat) : String :=
  String.mk (s.data.take n)

/-- Python slicing `x[:n]` on strings and lists. -/
def pySliceTo (j : Json) (n : Nat) : Except PyExc Json :=
  match j with
  | .str s => .ok (.str (pyTake s n))
  | .arr xs => .ok (.arr (xs.take n))
  | _ => .error (.typeError "object is not subscriptable")

/-- Python `str(x)` as used in f-strings.  Container rendering is elided to
a marker: no event field rendered by the source carries a container where
its shape matters to the rendered text. -/
def pyStr : Json → String
  | .null => "None"
  | .bool true => "True"
  | .bool false => "False"
  | .num n => toString n
  | .str s => s
  | .arr _ => "[...]"
  | .obj _ => "\x7b...\x7d"

/-- Python `sep.join(list_of_str)` (on an explicit string list). -/
def pyJoin (sep : String) : List String → String
  | [] => ""
  | [a] => a
  | a :: rest => a ++ sep ++ pyJoin sep rest

/-- Python `sep.join(x)` on a decoded JSON value: iterates `x` and requires
every element to be a string, raising `TypeError` otherwise. -/
def pyJoinSeq (sep : String) (j : Json) : Except PyExc String := do
  let xs ← pyIter j
  let ss ← xs.mapM fun x =>
    match x with
    | .str s => Except.ok s
    | _ => Except.error (.typeError "sequence item: expected str instance")
  pure (pyJoin sep ss)

/-- Python `x.lower()`: raises `AttributeError` on a non-string. -/
def pyLowerJ : Json → Except PyExc String
  | .str s => .ok (pyLower s)
  | _ => .error (.attributeError "object has no attribute lower")

/-- Python `x.strip()`: raises `AttributeError` on a non-string. -/
def pyStripJ : Json → Except PyExc String
  | .str s => .ok s.trim
  | _ => .error (.attributeError "object has no attribute strip")

/-- Whether a character list starts with the given needle. -/
def listStartsWith : List Char → List Char → Bool
  | [], _ => true
  | _ :: _, [] => false
  | a :: as, b :: bs => a == b && listStartsWith as bs

/-- Whether `needle` occurs contiguously inside `hay`. -/
def containsSub (needle : List Char) : List Char → Bool
  | [] => needle.isEmpty
  | b :: bs => listStartsWith needle (b :: bs) || containsSub needle bs

/-- Python substring test `needle in hay`. -/
def pyIn (needle hay : String) : Bool :=
  containsSub needle.data hay.data

/-- Python `x == "literal"` on a decoded JSON value: true exactly when `x`
is that string (a Python value of another type never equals a `str`). -/
def jsonIsStr : Json → String → Bool
  | .str s, v => s == v
  | _, _ => false

/-- Python `d.get(key) == "literal"` where the left side may be `None`. -/
def optIsStr : Option Json → String → Bool
  | some j, v => jsonIsStr j v
  | none, _ => false

/-- `os.path.basename` for POSIX paths: the part after the last slash. -/
def basename (p : String) : String :=
  (p.splitOn "/").getLastD ""

/-- One iteration of the `for content_item in content` loop of the
`assistant` branch of `_display_claude_progress` (source lines 58-88):
text segments print their body when non-blank after stripping; `tool_use`
segments print the tool name and a tool-specific detail line. -/
def assistantItemStep (acc : List String) (content_item : Json) :
    Except PyExc (List String) := do
  let it ← pyGetOpt content_item "type"
  if optIsStr it "text" then
    let text ← pyGetD content_item "text" (Json.str "")
    let stripped ← pyStripJ text
    if !stripped.isEmpty then
      pure (acc ++ ["\n" ++ pyStr text])
    else
      pure acc
  else if optIsStr it "tool_use" then
    let tool_name ← pyGetD content_item "name" (Json.str "unknown")
    let acc := acc ++ ["\nUsing tool: " ++ pyStr tool_name]
    if jsonIsStr tool_name "Write" then
      let input_data ← pyGetD content_item "input" (Json.obj [])
      let file_path ← pyGetD input_data "file_path" (Json.str "")
      if pyTruthy file_path then
        pure (acc ++ ["   Creating file: " ++ basename (pyStr file_path)])
      else
        pure acc
    else if jsonIsStr tool_name "Edit" then
      let input_data ← pyGetD content_item "input" (Json.obj [])
      let file_path ← pyGetD input_data "file_path" (Json.str "")
      if pyTruthy file_path then
        pure (acc ++ ["   Editing file: " ++ basename (pyStr file_path)])
      else
        pure acc
    else if jsonIsStr tool_name "Read" then
      let input_data ← pyGetD content_item "input" (Json.obj [])
      let file_path ← pyGetD input_data "file_path" (Json.str "")
      if pyTruthy file_path then
        pure (acc ++ ["   Reading file: " ++ basename (pyStr file_path)])
      else
        pure acc
    else if jsonIsStr tool_name "Bash" then
      let input_data ← pyGetD content_item "input" (Json.obj [])
      let command ← pyGetD input_data "command" (Json.str "")
      if pyTruthy command then
        let sliced ← pySliceTo command 50
        let n ← pyLen command
        pure (acc ++ ["   Running: " ++ pyStr sliced ++ (if n > 50 then "..." else "")])
      else
        pure acc
    else
      pure acc
  else
    pure acc

/-- One iteration of the `for content_item in content` loop of the `user`
branch of `_display_claude_progress` (source lines 94-102): a
`tool_result` item's text is classified by case-insensitive substring
match. -/
def userItemStep (acc : List String) (content_item : Json) :
    Except PyExc (List String) := do
  let it ← pyGetOpt content_item "type"
  if optIsStr it "tool_result" then
    let result_content ← pyGetD content_item "content" (Json.str "")
    let lowered ← pyLowerJ result_content
    if pyIn "successfully" lowered then
      pure (acc ++ ["   Success"])
    else if pyIn "error" lowered || pyIn "failed" lowered then
      let sliced ← pySliceTo result_content 100
      pure (acc ++ ["   Error: " ++ pyStr sliced ++ "..."])
    else
      let sliced ← pySliceTo result_content 100
      let n ← pyLen result_content
      pure (acc ++ ["   " ++ pyStr sliced ++ (if n > 100 then "..." else "")])
  else
    pure acc

/-- Embedding of `_display_claude_progress` (source lines 44-114): classify
one decoded streaming event and return the lines it prints.  Errors model
the Python exceptions the source can raise on structurally unexpected
values (e.g. `.get` on a non-dict, `.lower()` on a non-string). -/
def displayClaudeProgress (json_obj : Json) : Except PyExc (List String) := do
  let t ← pyGetOpt json_obj "type"
  if optIsStr t "system" then
    let st ← pyGetOpt json_obj "subtype"
    if optIsStr st "init" then
      let model ← pyGetD json_obj "model" (Json.str "unknown")
      let tools ← pyGetD json_obj "tools" (Json.arr [])
      let base := ["Initializing Claude session...", "   Model: " ++ pyStr model]
      if pyTruthy tools then
        let sliced ← pySliceTo tools 5
        let joined ← pyJoinSeq ", " sliced
        let n ← pyLen tools
        pure (base ++ ["   Available tools: " ++ joined ++ (if n > 5 then "..." else "")])
      else
        pure base
    else
      pure []
  else if optIsStr t "assistant" then
    let message ← pyGetD json_obj "message" (Json.obj [])
    let content ← pyGetD message "content" (Json.arr [])
    let items ← pyIter content
    items.foldlM assistantItemStep []
  else if optIsStr t "user" then
    let message ← pyGetD json_obj "message" (Json.obj [])
    let content ← pyGetD message "content" (Json.arr [])
    let items ← pyIter content
    items.foldlM userItemStep []
  else if optIsStr t "result" then
    let st ← pyGetOpt json_obj "subtype"
    if optIsStr st "success" then
      let result ← pyGetD json_obj "result" (Json.str "")
      let cost ← pyGetD json_obj "cost_usd" (Json.num 0)
      let duration ← pyGetD json_obj "duration_ms" (Json.num 0)
      let durStr ← match duration with
        | .num d => Except.ok (toString (d / 1000) ++ "." ++ toString ((d * 10 / 1000) % 10))
        | _ => Except.error (.typeError "unsupported operand type for division")
      let costStr ← match cost with
        | .num c => Except.ok (toString c ++ ".0000")
        | _ => Except.error (.typeError "unsupported format string")
      let base := ["\nTask completed successfully!"]
      let mid := if pyTruthy result then ["   Result: " ++ pyStr result] else []
      pure (base ++ mid ++ ["   Duration: " ++ durStr ++ "s, Cost: $" ++ costStr])
    else
      let err ← pyGetD json_obj "error" (Json.str "Unknown error")
      pure ["\nTask failed: " ++ pyStr err]
  else
    pure []

/-- The normalized response type (`AgentResponse` from `agents/base`,
declared outside this file's source).  Modelled from the spec:
`ExecutionOutcome` is `{succeeded: bool, content: string, error_message:
optional string}`; the constructor call on the success path supplies no
`error_message`, so the field defaults to `none`. -/
structure AgentResponse where
  content : String
  success : Bool
  error_message : Option String := none
deriving DecidableEq

/-- The configuration consumed by `execute_prompt`: the agent display name
(`self.agent_name`) and `config.agent_timeout_seconds`. -/
structure Config where
  agentName : String
  agentTimeoutSeconds : Nat
deriving DecidableEq

/-- One raw line received from the subprocess's standard output, together
with the outcome of `json.loads` on its stripped text (the external JSON
decoder is treated as an oracle): `parsed = some v` when the stripped line
decodes to the value `v`, `none` when `json.loads` raises
`JSONDecodeError`. -/
structure JLine where
  raw : String
  parsed : Option Json

/-- The external world one call to `execute_prompt` observes: the
operator's confirmation input, whether `Popen` itself raises (`spawn = some
msg` models an `OSError` with message `msg`), the standard-output lines
until end-of-stream, the wait outcome (`none` models
`subprocess.TimeoutExpired`), the standard-error block read after exit, and
the artifact reader's outcome (`_read_output_file`, modelled from the
spec: it returns the artifact's full text or fails with a message). -/
structure World where
  approval : String
  spawn : Option String
  lines : List JLine
  waitExit : Option Int
  stderrOutput : String
  artifact : Except String String

/-- Processing of one non-empty line of subprocess output (source lines
164-173): append to the transcript, try `json.loads` on the stripped text,
display the decoded event, and on `JSONDecodeError` print the stripped raw
text (if non-empty) instead.  Returns the printed lines; an error models a
Python exception escaping the line handler. -/
def processLine (l : JLine) : Except PyExc (List String) :=
  match l.parsed with
  | some j => displayClaudeProgress j
  | none => .ok (if l.raw.trim = "" then [] else ["[Output]: " ++ l.raw.trim])

/-- The real-time streaming loop (source lines 160-173): consume each line
until end-of-stream; empty reads are skipped; an exception raised while
processing a line aborts the loop and propagates. -/
def streamLoop : List JLine → Except PyExc Unit
  | [] => .ok ()
  | l :: ls =>
    if l.raw = "" then
      streamLoop ls
    else
      match processLine l with
      | .error e => .error e
      | .ok _ => streamLoop ls

/-- The body of the outer `try` of `execute_prompt` (source lines 128-207):
spawn, stream, wait with timeout, read standard error, reconcile the exit
code with the artifact.  Returns the produced response or the escaping
exception, paired with whether `process.kill()` was called.  On
`subprocess.TimeoutExpired` from `wait`, the inner handler (lines 187-189)
kills the process and raises `AgentTimeoutException` carrying the agent
name and the configured timeout. -/
def innerBody (cfg : Config) (w : World) : Except PyExc AgentResponse × Bool :=
  match w.spawn with
  | some msg => (.error (.osError msg), false)
  | none =>
    match streamLoop w.lines with
    | .error e => (.error e, false)
    | .ok _ =>
      match w.waitExit with
      | none =>
        (.error (.agentTimeout cfg.agentName cfg.agentTimeoutSeconds
          "Claude command execution timed out"), true)
      | some return_code =>
        let stderr_lines := if w.stderrOutput ≠ "" then [w.stderrOutput] else []
        if return_code == 0 then
          match w.artifact with
          | .ok content =>
            (.ok { content := content, success := true }, false)
          | .error msg => (.error (.artifactError msg), false)
        else
          let joined := pyJoin "\n" stderr_lines
          let error_msg :=
            if joined ≠ "" then joined
            else "Command failed with return code " ++ toString return_code
          (.ok { content := "", success := false, error_message := some error_msg }, false)

/-- Equality of `Except` values is decidable when both components are. -/
instance {e a : Type} [DecidableEq e] [DecidableEq a] : DecidableEq (Except e a) := fun x y =>
  match x, y with
  | .ok u, .ok v =>
    if h : u = v then isTrue (by rw [h]) else isFalse fun hc => h (Except.ok.inj hc)
  | .error u, .error v =>
    if h : u = v then isTrue (by rw [h]) else isFalse fun hc => h (Except.error.inj hc)
  | .ok _, .error _ => isFalse fun hc => Except.noConfusion hc
  | .error _, .ok _ => isFalse fun hc => Except.noConfusion hc

/-- The trace of one `execute_prompt` call: what it returns (or the
exception escaping it), whether a subprocess was spawned, and whether the
subprocess was forcibly killed. -/
structure ExecTrace where
  result : Except PyExc AgentResponse
  spawned : Bool
  killed : Bool
deriving DecidableEq

/-- The response returned when the operator declines the confirmation gate
(source lines 121-126). -/
def cancelledResponse : AgentResponse :=
  { content := "Operation cancelled by user", success := false,
    error_message := some "User did not approve execution with dangerous permissions" }

/-- The response built by the `except Exception` handler (source lines
212-217). -/
def genericFailure (e : PyExc) : AgentResponse :=
  { content := "", success := false,
    error_message := some ("Failed to execute Claude command: " ++ e.str) }

/-- Embedding of `execute_prompt` (source lines 116-217): the confirmation
gate (`approval.lower() != 'y'` declines without spawning), then the outer
`try` body, then the outer handlers in source order: `except
subprocess.TimeoutExpired` (line 209) and `except Exception` (line 212,
which converts any escaping `Exception` — the modelled
`AgentTimeoutException` included — into a generic failed response). -/
def execute (cfg : Config) (w : World) : ExecTrace :=
  if pyLower w.approval ≠ "y" then
    ⟨.ok cancelledResponse, false, false⟩
  else
    match (innerBody cfg w).1 with
    | .ok r => ⟨.ok r, true, (innerBody cfg w).2⟩
    | .error e =>
      if e.isTimeoutExpired then
        ⟨.error (.agentTimeout cfg.agentName cfg.agentTimeoutSeconds
          "Claude command timed out"), true, (innerBody cfg w).2⟩
      else if e.isException then
        ⟨.ok (genericFailure e), true, (innerBody cfg w).2⟩
      else
        ⟨.error e, true, (innerBody cfg w).2⟩

/-- Embedding of `is_ide_open_with_correct_project` (source lines 240-257):
false when no project name is set (`None` or empty, both falsy in Python);
otherwise the lowercased project name must occur as a substring of the
lowercased basename of the current working directory. -/
def is_ide_open_with_correct_project (currentProjectName : Option String)
    (cwd : String) : Bool :=
  match currentProjectName with
  | none => false
  | some name =>
    if name.isEmpty then false
    else pyIn (pyLower name) (pyLower (basename cwd))

/-- A `"user"` streaming event carrying one tool result with the given
text, as emitted by the agent's streaming protocol. -/
def userEvent (txt : String) : Json :=
  Json.obj [("type", Json.str "user"),
    ("message", Json.obj [("content", Json.arr
      [Json.obj [("type", Json.str "tool_result"), ("content", Json.str txt)]])])]

/-- An `"assistant"` streaming event carrying one `tool_use` segment naming
the shell-execution tool `Bash` with the given command string. -/
def bashEvent (cmd : String) : Json :=
  Json.obj [("type", Json.str "assistant"),
    ("message", Json.obj [("content", Json.arr
      [Json.obj [("type", Json.str "tool_use"), ("name", Json.str "Bash"),
        ("input", Json.obj [("command", Json.str cmd)])]])])]

/-- A string with a non-empty left part is non-empty. -/
theorem append_ne_empty_left (s t : String) (h : s ≠ "") : s ++ t ≠ "" := by
  intro hc
  apply h
  have hl := congrArg String.length hc
  rw [String.length_append, String.length_empty] at hl
  have hs : s.length = 0 := by omega
  cases s with
  | mk data =>
    simp [String.length] at hs
    simp [hs]

/-- `pyTake` keeps a string whole when it is short enough. -/
theorem pyTake_of_le_length (s : String) (n : Nat) (h : s.length ≤ n) : pyTake s n = s := by
  cases s with
  | mk data =>
    simp [String.length] at h
    simp [pyTake, List.take_of_length_le h]

/-- **C1.** If the subprocess does not exit within the configured timeout,
the subprocess is killed (`killed = true`) and the raised
`AgentTimeoutException` is then caught by the `except Exception` handler:
the call returns a generic `succeeded = false` response, not the distinct
timeout error. -/
theorem c1_timeout_killed_but_folded :
    execute ⟨"Claude Code", 600⟩ ⟨"y", none, [], none, "", .ok "X"⟩ =
      ⟨.ok (genericFailure
        (.agentTimeout "Claude Code" 600 "Claude command execution timed out")),
        true, true⟩ := by
  decide

/-- **C2 counterexample.** Classification is not total: the line `[]` is
valid JSON but not a key-value record, so `json.loads` succeeds and
`_display_claude_progress` raises `AttributeError` on `.get`, aborting the
read loop. -/
theorem c2_counterexample :
    ¬ (∀ l : JLine, ∃ out, processLine l = Except.ok out) := by
  intro hall
  obtain ⟨out, hout⟩ := hall ⟨"[]", some (Json.arr [])⟩
  exact Except.noConfusion hout

/-- **C2 (amended).** For every raw line that fails structured (JSON)
parsing, classification never raises and never aborts the read loop: the
line is rendered as raw text (when non-blank) and the loop continues. -/
theorem c2_parse_failure_degrades (raw : String) (rest : List JLine) :
    processLine ⟨raw, none⟩ =
      .ok (if raw.trim = "" then [] else ["[Output]: " ++ raw.trim]) ∧
    streamLoop (⟨raw, none⟩ :: rest) = streamLoop rest := by
  refine ⟨rfl, ?_⟩
  simp only [streamLoop]
  split
  · rfl
  · rfl

/-- Every response the outer try-body produces is either the success
response built from a readable artifact, or a failure with empty content
and a non-empty error message. -/
theorem innerBody_ok_cases (cfg : Config) (w : World) (r : AgentResponse)
    (h : (innerBody cfg w).1 = .ok r) :
    (∃ c, w.artifact = .ok c ∧ r = { content := c, success := true }) ∨
    (r.content = "" ∧ r.success = false ∧ ∃ m, r.error_message = some m ∧ m ≠ "") := by
  cases hsp : w.spawn with
  | some msg => simp [innerBody, hsp] at h
  | none =>
    cases hloop : streamLoop w.lines with
    | error e => simp [innerBody, hsp, hloop] at h
    | ok u =>
      cases hwait : w.waitExit with
      | none => simp [innerBody, hsp, hloop, hwait] at h
      | some code =>
        by_cases hcode : (code == 0) = true
        · cases hart : w.artifact with
          | ok c =>
            simp [innerBody, hsp, hloop, hwait, hart, hcode] at h
            exact Or.inl ⟨c, rfl, h.symm⟩
          | error msg =>
            simp [innerBody, hsp, hloop, hwait, hart, hcode] at h
        · by_cases hse : w.stderrOutput = ""
          · simp [innerBody, hsp, hloop, hwait, hcode, hse, pyJoin] at h
            rw [← h]
            exact Or.inr ⟨rfl, rfl, _, rfl, append_ne_empty_left _ _ (by decide)⟩
          · simp [innerBody, hsp, hloop, hwait, hcode, hse, pyJoin] at h
            rw [← h]
            exact Or.inr ⟨rfl, rfl, _, rfl, hse⟩

/-- Every response `execute` returns is the operator-decline response, a
response produced by the try-body, or the generic `except Exception`
failure response. -/
theorem execute_result_cases (cfg : Config) (w : World) (r : AgentResponse)
    (h : (execute cfg w).result = .ok r) :
    r = cancelledResponse ∨ (innerBody cfg w).1 = .ok r ∨ ∃ e, r = genericFailure e := by
  by_cases happ : pyLower w.approval = "y"
  · unfold execute at h
    rw [if_neg (by simp [happ])] at h
    cases hib : (innerBody cfg w).1 with
    | ok r2 =>
      rw [hib] at h
      simp at h
      exact Or.inr (Or.inl (by rw [h]))
    | error e =>
      rw [hib] at h
      by_cases ht : e.isTimeoutExpired = true
      · simp [ht] at h
      · simp only [ht, PyExc.isException, Bool.false_eq_true, if_false, if_true] at h
        simp at h
        exact Or.inr (Or.inr ⟨e, h.symm⟩)
  · unfold execute at h
    rw [if_pos (by simp [happ])] at h
    simp at h
    exact Or.inl h.symm

/-- **C3 counterexample.** When the operator declines, `execute` returns
`succeeded = false` with `content = "Operation cancelled by user"`, which
is not empty — the claimed invariant `succeeded == false → content = ""`
fails on the decline path. -/
theorem c3_counterexample :
    (execute ⟨"Claude Code", 600⟩ ⟨"n", none, [], some 0, "", .ok "X"⟩).result =
      .ok cancelledResponse ∧
    cancelledResponse.success = false ∧ cancelledResponse.content ≠ "" := by
  exact ⟨by decide, rfl, by decide⟩

/-- **C3 (amended).** For every response `execute` returns:
`succeeded = true` implies `error_message` is empty and `content` is the
text read from the result artifact; `succeeded = false` implies `content`
is empty, except on operator decline, where the response is the fixed
cancellation response (whose content is "Operation cancelled by user"). -/
theorem c3_outcome_invariant (cfg : Config) (w : World) (r : AgentResponse)
    (h : (execute cfg w).result = .ok r) :
    (r.success = true → r.error_message = none ∧ w.artifact = .ok r.content) ∧
    (r.success = false → r.content = "" ∨ r = cancelledResponse) := by
  rcases execute_result_cases cfg w r h with hr | hr | ⟨e, hr⟩
  · subst hr
    exact ⟨fun hs => absurd hs (by decide), fun _ => Or.inr rfl⟩
  · rcases innerBody_ok_cases cfg w r hr with ⟨c, hart, hrc⟩ | ⟨h1, h2, _, _, _⟩
    · subst hrc
      exact ⟨fun _ => ⟨rfl, hart⟩, fun hs => absurd hs (by simp)⟩
    · exact ⟨fun hs => absurd (h2.symm.trans hs) (by decide), fun _ => Or.inl h1⟩
  · subst hr
    exact ⟨fun hs => absurd hs (by simp [genericFailure]), fun _ => Or.inl rfl⟩

/-- Closed instance discharging the hypothesis of `c3_outcome_invariant`
at a concrete successful execution. -/
theorem c3_outcome_invariant_witness :
    (execute ⟨"Claude Code", 600⟩ ⟨"y", none, [], some 0, "", .ok "X"⟩).result =
      .ok { content := "X", success := true } ∧
    ((({ content := "X", success := true } : AgentResponse).success = true →
        ({ content := "X", success := true } : AgentResponse).error_message = none ∧
        (⟨"y", none, [], some 0, "", .ok "X"⟩ : World).artifact =
          .ok ({ content := "X", success := true } : AgentResponse).content) ∧
     (({ content := "X", success := true } : AgentResponse).success = false →
        ({ content := "X", success := true } : AgentResponse).content = "" ∨
        ({ content := "X", success := true } : AgentResponse) = cancelledResponse)) :=
  ⟨by decide, c3_outcome_invariant ⟨"Claude Code", 600⟩ _ _ (by decide)⟩

/-- **C4.** When the subprocess exits with code 0 but the result artifact
cannot be read, `execute` returns `succeeded = false` with a non-empty
error message — never `succeeded = true`. -/
theorem c4_unreadable_artifact_fails (cfg : Config) (w : World) (msg : String)
    (happ : pyLower w.approval = "y") (hsp : w.spawn = none)
    (hloop : streamLoop w.lines = .ok ()) (hwait : w.waitExit = some 0)
    (hart : w.artifact = .error msg) :
    (execute cfg w).result = .ok (genericFailure (.artifactError msg)) ∧
    (genericFailure (.artifactError msg)).success = false ∧
    ∃ m, (genericFailure (.artifactError msg)).error_message = some m ∧ m ≠ "" := by
  have hib : (innerBody cfg w).1 = .error (.artifactError msg) := by
    simp [innerBody, hsp, hloop, hwait, hart]
  refine ⟨?_, rfl, _, rfl, append_ne_empty_left _ _ (by decide)⟩
  unfold execute
  rw [if_neg (by simp [happ]), hib]
  rfl

/-- Closed instance discharging the hypotheses of
`c4_unreadable_artifact_fails` at a concrete input. -/
theorem c4_unreadable_artifact_fails_witness :
    pyLower (⟨"y", none, [], some 0, "", .error "Output file missing"⟩ : World).approval = "y" ∧
    ((execute ⟨"Claude Code", 600⟩ ⟨"y", none, [], some 0, "", .error "Output file missing"⟩).result =
        .ok (genericFailure (.artifactError "Output file missing")) ∧
      (genericFailure (.artifactError "Output file missing")).success = false ∧
      ∃ m, (genericFailure (.artifactError "Output file missing")).error_message = some m ∧ m ≠ "") :=
  ⟨by decide,
   c4_unreadable_artifact_fails ⟨"Claude Code", 600⟩ _ _ (by decide) rfl rfl rfl rfl⟩

/-- **C6.** On a non-zero exit code, `execute` returns `succeeded = false`
with `error_message` equal to the captured standard-error text, falling
back to "Command failed with return code N" when standard error is
empty. -/
theorem c6_nonzero_exit_failure (cfg : Config) (w : World) (code : Int)
    (happ : pyLower w.approval = "y") (hsp : w.spawn = none)
    (hloop : streamLoop w.lines = .ok ()) (hwait : w.waitExit = some code)
    (hcode : code ≠ 0) :
    (execute cfg w).result = .ok
      { content := "", success := false,
        error_message := some (if w.stderrOutput = "" then
          "Command failed with return code " ++ toString code
        else w.stderrOutput) } := by
  have hib : (innerBody cfg w).1 = .ok
      { content := "", success := false,
        error_message := some (if w.stderrOutput = "" then
          "Command failed with return code " ++ toString code
        else w.stderrOutput) } := by
    by_cases hse : w.stderrOutput = "" <;>
      simp [innerBody, hsp, hloop, hwait, hcode, hse, pyJoin]
  unfold execute
  rw [if_neg (by simp [happ]), hib]

/-- Closed instance discharging the hypotheses of
`c6_nonzero_exit_failure` at the claim's scenario: exit code 1 with
standard error "permission denied". -/
theorem c6_nonzero_exit_failure_witness :
    (1 : Int) ≠ 0 ∧
    (execute ⟨"Claude Code", 600⟩ ⟨"y", none, [], some 1, "permission denied", .ok "X"⟩).result =
      .ok { content := "", success := false, error_message := some "permission denied" } := by
  refine ⟨by decide, ?_⟩
  have h := c6_nonzero_exit_failure ⟨"Claude Code", 600⟩
    ⟨"y", none, [], some 1, "permission denied", .ok "X"⟩ 1 (by decide) rfl rfl rfl (by decide)
  simpa using h

/-- **C8.** Every `succeeded = false` response `execute` returns carries a
non-empty error message, across all failure paths: operator decline,
non-zero exit code, unreadable artifact, and unexpected exceptions. -/
theorem c8_failure_has_error_message (cfg : Config) (w : World) (r : AgentResponse)
    (h : (execute cfg w).result = .ok r) (hf : r.success = false) :
    ∃ m, r.error_message = some m ∧ m ≠ "" := by
  rcases execute_result_cases cfg w r h with hr | hr | ⟨e, hr⟩
  · subst hr
    exact ⟨_, rfl, by decide⟩
  · rcases innerBody_ok_cases cfg w r hr with ⟨c, hart, hrc⟩ | ⟨h1, h2, hm⟩
    · rw [hrc] at hf
      exact absurd hf (by simp)
    · exact hm
  · subst hr
    exact ⟨_, rfl, append_ne_empty_left _ _ (by decide)⟩

/-- Closed instance discharging the hypotheses of
`c8_failure_has_error_message` at a concrete declined execution. -/
theorem c8_failure_has_error_message_witness :
    (execute ⟨"Claude Code", 600⟩ ⟨"no", none, [], some 0, "", .ok "X"⟩).result =
      .ok cancelledResponse ∧
    cancelledResponse.success = false ∧
    ∃ m, cancelledResponse.error_message = some m ∧ m ≠ "" :=
  ⟨by decide, rfl,
   c8_failure_has_error_message ⟨"Claude Code", 600⟩
     ⟨"no", none, [], some 0, "", .ok "X"⟩ cancelledResponse (by decide) rfl⟩

/-- **C9.** The confirmation gate approves execution exactly when the
operator's input, lowercased, is the single character "y"; any other
input declines: `execute` returns the fixed cancellation response without
spawning a subprocess. -/
theorem c9_confirmation_gate (cfg : Config) (w : World) :
    (pyLower w.approval = "y" → (execute cfg w).spawned = true) ∧
    (pyLower w.approval ≠ "y" →
      execute cfg w = ⟨.ok cancelledResponse, false, false⟩) := by
  constructor
  · intro h
    unfold execute
    rw [if_neg (by simp [h])]
    cases hib : (innerBody cfg w).1 with
    | ok r => rfl
    | error e =>
      by_cases ht : e.isTimeoutExpired = true <;>
        simp [ht, PyExc.isException]
  · intro h
    unfold execute
    rw [if_pos h]

/-- Closed instance discharging the hypotheses of `c9_confirmation_gate`:
"Y" (lowercased "y") approves and spawns; "yes" declines without
spawning. -/
theorem c9_confirmation_gate_witness :
    (pyLower "Y" = "y" ∧
      (execute ⟨"Claude Code", 600⟩ ⟨"Y", none, [], some 0, "", .ok "X"⟩).spawned = true) ∧
    (pyLower "yes" ≠ "y" ∧
      execute ⟨"Claude Code", 600⟩ ⟨"yes", none, [], some 0, "", .ok "X"⟩ =
        ⟨.ok cancelledResponse, false, false⟩) :=
  ⟨⟨by decide,
    (c9_confirmation_gate ⟨"Claude Code", 600⟩ ⟨"Y", none, [], some 0, "", .ok "X"⟩).1 (by decide)⟩,
   ⟨by decide,
    (c9_confirmation_gate ⟨"Claude Code", 600⟩ ⟨"yes", none, [], some 0, "", .ok "X"⟩).2 (by decide)⟩⟩

/-- Folding a one-iteration loop body over a single-element list is one
application of the body. -/
theorem foldlM_singleton {m : Type → Type} [Monad m] [LawfulMonad m] {s α : Type}
    (f : s → α → m s) (init : s) (x : α) :
    List.foldlM f init [x] = f init x := by
  simp

/-- Rendering of a tool-result text as the source renders it (amended
claim C5): "successfully" yields the terse success marker; otherwise
"error"/"failed" yields a failure marker with the first 100 characters
and an always-appended ellipsis; otherwise the first 100 characters with
an ellipsis exactly when the text is longer than 100 characters.  All
substring matches are case-insensitive. -/
def toolResultRender (txt : String) : String :=
  if pyIn "successfully" (pyLower txt) then "   Success"
  else if pyIn "error" (pyLower txt) || pyIn "failed" (pyLower txt) then
    "   Error: " ++ pyTake txt 100 ++ "..."
  else
    "   " ++ pyTake txt 100 ++ (if txt.length > 100 then "..." else "")

/-- Rendering of a tool-result text as claim C5 words it: identical to
`toolResultRender` except that the failure branch, too, appends the
truncation indicator exactly when the text is longer than 100
characters. -/
def toolResultRenderClaimed (txt : String) : String :=
  if pyIn "successfully" (pyLower txt) then "   Success"
  else if pyIn "error" (pyLower txt) || pyIn "failed" (pyLower txt) then
    "   Error: " ++ pyTake txt 100 ++ (if txt.length > 100 then "..." else "")
  else
    "   " ++ pyTake txt 100 ++ (if txt.length > 100 then "..." else "")

/-- **C5 counterexample.** The text "error" is 5 characters long, yet the
rendered failure marker ends in the truncation indicator: the claim's
"appended exactly when the text is longer than 100 characters" fails on
the error/failed branch. -/
theorem c5_counterexample :
    ¬ (∀ txt, displayClaudeProgress (userEvent txt) =
        .ok [toolResultRenderClaimed txt]) :=
  fun h => absurd (h "error") (by decide)

/-- **C5 (amended).** Every user-type event's tool-result text is rendered
per `toolResultRender`: success marker on "successfully"; failure marker
with the first 100 characters and an unconditional truncation indicator on
"error"/"failed"; otherwise the first 100 characters with the indicator
exactly when the text is longer than 100 characters. -/
theorem c5_tool_result_rendering (txt : String) :
    displayClaudeProgress (userEvent txt) = .ok [toolResultRender txt] := by
  have h0 : displayClaudeProgress (userEvent txt) =
      List.foldlM userItemStep []
        [Json.obj [("type", Json.str "tool_result"), ("content", Json.str txt)]] := rfl
  rw [h0, foldlM_singleton]
  have h1 : userItemStep []
      (Json.obj [("type", Json.str "tool_result"), ("content", Json.str txt)]) =
      (if pyIn "successfully" (pyLower txt) then Except.ok ["   Success"]
       else if pyIn "error" (pyLower txt) || pyIn "failed" (pyLower txt) then
         Except.ok ["   Error: " ++ pyTake txt 100 ++ "..."]
       else Except.ok ["   " ++ pyTake txt 100 ++
         (if txt.length > 100 then "..." else "")]) := rfl
  rw [h1]
  unfold toolResultRender
  by_cases h1 : pyIn "successfully" (pyLower txt) = true
  · simp [h1]
  · by_cases h2 : (pyIn "error" (pyLower txt) || pyIn "failed" (pyLower txt)) = true
    · simp [h1, h2]
    · simp [h1, h2]

/-- The shell-command summary claim C7 describes: the first 50 characters
followed by a truncation marker when the command is longer than 50
characters; the full command otherwise. -/
def bashSummary (cmd : String) : String :=
  if cmd.length > 50 then pyTake cmd 50 ++ "..." else cmd

/-- **C7 counterexample.** For the empty command (which has 50 characters
or fewer), no summary line is rendered at all, so the claim's "the full
command is rendered with no marker" fails at the empty command. -/
theorem c7_counterexample :
    ¬ (∀ cmd, displayClaudeProgress (bashEvent cmd) =
        .ok ["\nUsing tool: Bash", "   Running: " ++ bashSummary cmd]) :=
  fun h => absurd (h "") (by decide)

/-- **C7 (amended).** For every tool_use segment naming Bash: a command
longer than 50 characters renders as its first 50 characters plus the
truncation marker; a nonempty command of 50 characters or fewer renders
whole with no marker; the empty command renders no summary line. -/
theorem c7_bash_rendering (cmd : String) :
    displayClaudeProgress (bashEvent cmd) =
      .ok (["\nUsing tool: Bash"] ++
        (if cmd.isEmpty then [] else ["   Running: " ++ bashSummary cmd])) := by
  have h0 : displayClaudeProgress (bashEvent cmd) =
      List.foldlM assistantItemStep []
        [Json.obj [("type", Json.str "tool_use"), ("name", Json.str "Bash"),
          ("input", Json.obj [("command", Json.str cmd)])]] := rfl
  rw [h0, foldlM_singleton]
  have h1 : assistantItemStep []
      (Json.obj [("type", Json.str "tool_use"), ("name", Json.str "Bash"),
        ("input", Json.obj [("command", Json.str cmd)])]) =
      (if !cmd.isEmpty then
         Except.ok ["\nUsing tool: Bash",
           "   Running: " ++ pyTake cmd 50 ++ (if cmd.length > 50 then "..." else "")]
       else Except.ok ["\nUsing tool: Bash"]) := rfl
  rw [h1]
  unfold bashSummary
  by_cases he : cmd.isEmpty = true
  · simp [he]
  · by_cases hl : cmd.length > 50
    · simp [he, hl, String.append_assoc]
    · simp [he, hl, pyTake_of_le_length cmd 50 (by omega)]

/-- **C10.** `is_ide_open_with_correct_project` returns true exactly when
a (non-empty) project name is set and its lowercased form occurs as a
substring of the lowercased basename of the current working directory —
containment, not equality; in particular it returns false whenever no
project name is set. -/
theorem c10_project_directory_check (currentProjectName : Option String) (cwd : String) :
    is_ide_open_with_correct_project currentProjectName cwd = true ↔
      ∃ name, currentProjectName = some name ∧ name ≠ "" ∧
        pyIn (pyLower name) (pyLower (basename cwd)) = true := by
  cases currentProjectName with
  | none => simp [is_ide_open_with_correct_project]
  | some name =>
    by_cases h : name.isEmpty = true
    · have hne : name = "" := (String.isEmpty_iff name).mp h
      subst hne
      simp [is_ide_open_with_correct_project, h]
    · have hne : name ≠ "" := fun hc => h (by rw [hc]; rfl)
      simp [is_ide_open_with_correct_project, h, hne]
